import Mathlib

/-!
Shallow embedding of the build-and-cancel pipeline of `cargo-leptos`
(files `src/compile/server.rs`, `src/compile/front.rs`,
`src/compile/tailwind.rs`, `src/command/test.rs`), together with proofs of
the specification claims about it.

External effects (process spawning, filesystem hashing, the bindgen
library call) are oracles: each task takes the results those effects
produced as explicit inputs, and the pure control flow of the source is
embedded faithfully.  Each task also returns the ordered list of
external-process steps it performed, so that "no process was spawned" and
sub-step sequencing are statable.
-/

namespace CargoLeptos

/-- Product tag: which deliverable was actually (re)written this cycle
(`signal::Product` in the source). -/
inductive Product where
  | none
  | server
  | front
  | style
deriving DecidableEq, Repr

/-- Outcome of one cancellable unit of work (`signal::Outcome<T>`). -/
inductive Outcome (α : Type) where
  | success (a : α)
  | stopped
  | failed
deriving DecidableEq, Repr

/-- Modelled from the spec: result of racing one external process against
cancellation (`ext::sync::CommandResult`, not under `src/`): `success`
wraps a zero exit status with captured output, `failure` a non-zero exit
status, `interrupted` a cancellation that killed the process. -/
inductive CommandResult (α : Type) where
  | success (a : α)
  | interrupted
  | failure (a : α)
deriving DecidableEq, Repr

/-- One external-process sub-step of a build task, recorded in the order
the task performs it. -/
inductive Step where
  | compile
  | emitWasm
  | optimize
  | writeJs
deriving DecidableEq, Repr

/-- Modelled from the spec: captured stdout/stderr of a piped process
(`ext::sync::OutputExt`, not under `src/`). -/
structure Output where
  stdout : String
  stderr : String
deriving DecidableEq, Repr

/- ### Character-list string helpers (Rust `str` semantics) -/

/-- Split a character list at every occurrence of the separator `c`;
`n` separators give `n+1` (possibly empty) pieces. -/
def splitChar (c : Char) : List Char → List (List Char)
  | [] => [[]]
  | a :: rest =>
    match splitChar c rest with
    | [] => if a = c then [[], []] else [[a]]
    | h :: t => if a = c then [] :: h :: t else (a :: h) :: t

/-- Join character-list pieces with the separator `c` between them. -/
def joinChar (c : Char) : List (List Char) → List Char
  | [] => []
  | [l] => l
  | l :: rest => l ++ c :: joinChar c rest

/-- Drop one trailing carriage return, as Rust's `str::lines` does on each
line. -/
def stripCR (l : List Char) : List Char :=
  if l.getLast? = some '\r' then l.dropLast else l

/-- Rust `str::lines` on a character list: split at newlines, drop the
final piece when it is empty (so a trailing newline adds no line and the
empty string has no lines), and strip a trailing carriage return from
each line. -/
def rustLines (s : List Char) : List (List Char) :=
  let parts := splitChar '\n' s
  let parts :=
    match parts.getLast? with
    | some [] => parts.dropLast
    | _ => parts
  parts.map stripCR

/-- Rust `str::contains` with a literal pattern: does `needle` occur as a
contiguous sublist of the second argument? -/
def isSubListOf (needle : List Char) : List Char → Bool
  | [] => needle.isEmpty
  | h :: t => needle.isPrefixOf (h :: t) || isSubListOf needle t

/- ### Style task (`src/compile/tailwind.rs`) -/

/-- Tailwind style configuration paths (`config::TailwindConfig`; modelled
from the spec: "style configuration's input/output/config file paths"). -/
structure TailwindConfig where
  input_file : String
  config_file : String
deriving DecidableEq, Repr

/-- Embedding of `compile_tailwind` after the Tailwind process resolved:
the default-config creation and the spawn are I/O, and `res` is the
`CommandResult` the piped interruptible runner returned for the process.
On a zero exit the task inspects the last stderr line for the literal
marker `Done`: with the marker it succeeds carrying stdout, without it
(or with no stderr line at all) it fails despite the zero exit status. -/
def compile_tailwind (res : CommandResult Output) : Outcome String :=
  match res with
  | CommandResult.success output =>
    let done :=
      (((rustLines output.stderr.data).getLast?).map
        (fun l => isSubListOf "Done".data l)).getD false
    if done then Outcome.success output.stdout else Outcome.failed
  | CommandResult.interrupted => Outcome.stopped
  | CommandResult.failure _ => Outcome.failed

/-- Drop the last component of a `/`-separated path, as
`Utf8PathBuf::pop` does on the canonicalized config path. -/
def pathParent (p : String) : String :=
  String.mk (joinChar '/' ((splitChar '/' p.data).dropLast))

/-- Embedding of `tailwind_process`: given the canonicalization oracle
`canon` (the filesystem's `canonicalize`), build the argument list, the
log line, and the working directory for the Tailwind process.  Returns
`(args, line, cwd)`. -/
def tailwind_process (canon : String → String) (cmd : String)
    (tw_conf : TailwindConfig) : List String × String × String :=
  let input_file := canon tw_conf.input_file
  let config_file := canon tw_conf.config_file
  let args := ["--input", input_file, "--config", config_file]
  let line := cmd ++ " " ++ String.intercalate " " args
  (args, line, pathParent config_file)

/- ### Cargo command builders (`server.rs`, `front.rs`) -/

/-- Build profile (modelled from the spec: the project "carries build
profile (debug/release)"; `config/profile.rs` is not under `src/`). -/
inductive Profile where
  | debug
  | release
deriving DecidableEq, Repr

/-- Modelled from the spec: the profile-to-argument mapping
(`Profile::add_to_args`, not under `src/`): a release profile appends
`--release`, a debug profile appends nothing. -/
def Profile.add_to_args (p : Profile) (args : List String) : List String :=
  match p with
  | Profile.debug => args
  | Profile.release => args ++ ["--release"]

/-- Server binary package description (`config::BinPackage`; modelled from
the spec: "server package name/binary target/target-triple/feature
flags/profile"). -/
structure BinPackage where
  name : String
  target : String
  target_triple : Option String
  default_features : Bool
  features : List String
  profile : Profile
  exe_file : String
deriving DecidableEq, Repr

/-- Front-end library package description (`config::LibPackage`; modelled
from the spec: "front-end package name/feature flags/profile/output paths
for its compiled module and generated script"). -/
structure LibPackage where
  name : String
  default_features : Bool
  features : List String
  profile : Profile
  wasm_file : String
  js_file : String
deriving DecidableEq, Repr

/-- Embedding of `build_cargo_server_cmd`: the cargo argument list and the
logged command line for a server build.  The binary selector is pushed
only for subcommands other than `test`. -/
def build_cargo_server_cmd (cmd : String) (bin : BinPackage) :
    List String × String :=
  let args := [cmd, "--package=" ++ bin.name]
  let args := args ++ (if cmd ≠ "test" then ["--bin=" ++ bin.target] else [])
  let args := args ++ ["--target-dir=target/server"]
  let args := args ++
    (match bin.target_triple with
     | some triple => ["--target=" ++ triple]
     | none => [])
  let args := args ++ (if !bin.default_features then ["--no-default-features"] else [])
  let args := args ++
    (if !bin.features.isEmpty then
      ["--features=" ++ String.intercalate "," bin.features]
     else [])
  let args := bin.profile.add_to_args args
  (args, "cargo " ++ String.intercalate " " args)

/-- Embedding of `build_cargo_front_cmd`: the cargo argument list and the
logged command line for a front-end build. -/
def build_cargo_front_cmd (cmd : String) (wasm : Bool) (lib : LibPackage) :
    List String × String :=
  let args := [cmd, "--package=" ++ lib.name, "--lib", "--target-dir=target/front"]
  let args := args ++ (if wasm then ["--target=wasm32-unknown-unknown"] else [])
  let args := args ++ (if !lib.default_features then ["--no-default-features"] else [])
  let args := args ++
    (if !lib.features.isEmpty then
      ["--features=" ++ String.intercalate "," lib.features]
     else [])
  let args := lib.profile.add_to_args args
  (args, "cargo " ++ String.intercalate " " args)

/- ### Server task (`src/compile/server.rs`) -/

/-- Inputs and effect results of one server-task run: the project's server
package (if any), the Change Set's "server needs build" predicate, the
`CommandResult` of the cargo process, and the Output Store external-check
answer on the produced binary. -/
structure ServerEnv where
  bin : Option BinPackage
  need_server_build : Bool
  compileResult : CommandResult Unit
  binChanged : Bool
deriving DecidableEq, Repr

/-- Embedding of the `server` task body: short-circuit when no server
package is configured or no server rebuild is needed; otherwise run cargo
and fold its `CommandResult` into an `Outcome`, asking the Output Store
whether the binary changed.  Returns `(steps, outcome)` where `steps`
lists the external processes the run spawned, in order. -/
def server (e : ServerEnv) : List Step × Outcome Product :=
  match e.bin with
  | none => ([], Outcome.success Product.none)
  | some _ =>
    if !e.need_server_build then ([], Outcome.success Product.none)
    else
      match e.compileResult with
      | CommandResult.success _ =>
        if e.binChanged then ([Step.compile], Outcome.success Product.server)
        else ([Step.compile], Outcome.success Product.none)
      | CommandResult.interrupted => ([Step.compile], Outcome.stopped)
      | CommandResult.failure _ => ([Step.compile], Outcome.failed)

/- ### Front-end task (`src/compile/front.rs`) -/

/-- Inputs and effect results of one front-end-task run: the project's lib
package (if any), the Change Set's "front needs build" predicate, whether
the project builds in release mode, the `CommandResult`s of the cargo and
wasm-opt processes, and the Output Store change answers for the snippet
files, local modules, the wasm binary, and the JavaScript glue file. -/
structure FrontEnv where
  lib : Option LibPackage
  need_front_build : Bool
  release : Bool
  compileResult : CommandResult Unit
  optimizeResult : CommandResult Unit
  snippetsChanged : Bool
  modulesChanged : Bool
  wasmChanged : Bool
  jsGlueChanged : Bool
deriving DecidableEq, Repr

/-- Embedding of `bindgen`: after cargo succeeded, emit the wasm file,
run the size optimizer when in release (folding interruption and failure
into the outcome), write snippets, local modules and the JS glue through
the Output Store, and report `Product::Front` exactly when the wasm hash
or any generated JavaScript changed. -/
def bindgen (e : FrontEnv) : List Step × Outcome Product :=
  match e.lib with
  | none => ([], Outcome.success Product.none)
  | some _ =>
    let steps := [Step.emitWasm]
    let finish : Outcome Product :=
      let js_changed := e.snippetsChanged || e.modulesChanged
      let wasm_changed := e.wasmChanged
      let js_changed := js_changed || e.jsGlueChanged
      if js_changed || wasm_changed then Outcome.success Product.front
      else Outcome.success Product.none
    if e.release then
      match e.optimizeResult with
      | CommandResult.interrupted => (steps ++ [Step.optimize], Outcome.stopped)
      | CommandResult.failure _ => (steps ++ [Step.optimize], Outcome.failed)
      | CommandResult.success _ =>
        (steps ++ [Step.optimize, Step.writeJs], finish)
    else (steps ++ [Step.writeJs], finish)

/-- Embedding of the `front` task body: short-circuit when no front-end
package is configured or no front rebuild is needed; otherwise run cargo
targeting wasm and, only once it resolved `Success`, run `bindgen`.
Returns `(steps, outcome)` with the external-process steps in order. -/
def front (e : FrontEnv) : List Step × Outcome Product :=
  match e.lib with
  | none => ([], Outcome.success Product.none)
  | some _ =>
    if !e.need_front_build then ([], Outcome.success Product.none)
    else
      match e.compileResult with
      | CommandResult.interrupted => ([Step.compile], Outcome.stopped)
      | CommandResult.failure _ => ([Step.compile], Outcome.failed)
      | CommandResult.success _ =>
        let r := bindgen e
        (Step.compile :: r.1, r.2)

end CargoLeptos

namespace CargoLeptos

/- ### Helper lemmas -/

/-- Strings differing at some character position are distinct. -/
theorem ne_of_char_at (i : Nat) (a b : Char) (s t : String)
    (hs : s.data[i]? = some a) (ht : t.data[i]? = some b) (hab : a ≠ b) :
    s ≠ t := by
  intro h
  subst h
  rw [hs] at ht
  exact hab (Option.some_inj.mp ht)

/-- Indexing an appended string inside the first part. -/
theorem char_at_of_append (p s : String) (i : Nat) (h : i < p.data.length) :
    (p ++ s).data[i]? = p.data[i]? := by
  have hd : (p ++ s).data = p.data ++ s.data := by simp [String.data_append]
  rw [hd, List.getElem?_append, if_pos h]

/-- Membership survives the profile-to-argument mapping. -/
theorem mem_add_to_args (p : Profile) (args : List String) (x : String)
    (h : x ∈ args) : x ∈ p.add_to_args args := by
  cases p <;> simp [Profile.add_to_args, List.mem_append, h]


/-- The second character list position of a string prefixed by a
two-dash flag name determines the flag; used to separate `--bin=` from
every other cargo argument. -/
theorem binArg_ne (t : String) (u : String) (c : Char)
    (hu : u.data[2]? = some c) (hc : c ≠ 'b') : ("--bin=" ++ t) ≠ u := by
  have h1 : (("--bin=" : String) ++ t).data[2]? = some 'b' := by
    rw [char_at_of_append "--bin=" t 2 (by decide)]; decide
  exact ne_of_char_at 2 'b' c _ _ h1 hu (Ne.symm hc)

/-- For the `test` subcommand the binary selector never appears among the
produced cargo arguments. -/
theorem binArg_not_mem_test_args (bin : BinPackage) :
    ("--bin=" ++ bin.target) ∉ (build_cargo_server_cmd "test" bin).1 := by
  intro hmem
  have k1 : ("--bin=" ++ bin.target) ≠ "test" := binArg_ne _ _ 's' (by decide) (by decide)
  have k2 : ("--bin=" ++ bin.target) ≠ "--package=" ++ bin.name := by
    refine binArg_ne _ _ 'p' ?_ (by decide)
    rw [char_at_of_append "--package=" bin.name 2 (by decide)]; decide
  have k3 : ("--bin=" ++ bin.target) ≠ "--target-dir=target/server" :=
    binArg_ne _ _ 't' (by decide) (by decide)
  have k4 : ∀ tr : String, ("--bin=" ++ bin.target) ≠ "--target=" ++ tr := by
    intro tr
    refine binArg_ne _ _ 't' ?_ (by decide)
    rw [char_at_of_append "--target=" tr 2 (by decide)]; decide
  have k5 : ("--bin=" ++ bin.target) ≠ "--no-default-features" :=
    binArg_ne _ _ 'n' (by decide) (by decide)
  have k6 : ∀ f : String, ("--bin=" ++ bin.target) ≠ "--features=" ++ f := by
    intro f
    refine binArg_ne _ _ 'f' ?_ (by decide)
    rw [char_at_of_append "--features=" f 2 (by decide)]; decide
  have k7 : ("--bin=" ++ bin.target) ≠ "--release" :=
    binArg_ne _ _ 'r' (by decide) (by decide)
  rcases htr : bin.target_triple with _ | tr <;>
    cases hp : bin.profile <;>
    cases hdf : bin.default_features <;>
    cases hfe : bin.features.isEmpty <;>
    simp [build_cargo_server_cmd, Profile.add_to_args, htr, hp, hdf, hfe,
      k1, k2, k3, k4, k5, k6, k7] at hmem


/-- C10: the binary selector is passed exactly for non-`test` subcommands,
while the package selector, target directory, features and profile
arguments are present even for `test`. -/
theorem server_bin_selector_iff_not_test (cmd : String) (bin : BinPackage) :
    (("--bin=" ++ bin.target) ∈ (build_cargo_server_cmd cmd bin).1 ↔ cmd ≠ "test")
    ∧ (cmd = "test" →
        "test" ∈ (build_cargo_server_cmd cmd bin).1
        ∧ ("--package=" ++ bin.name) ∈ (build_cargo_server_cmd cmd bin).1
        ∧ "--target-dir=target/server" ∈ (build_cargo_server_cmd cmd bin).1
        ∧ (bin.features ≠ [] →
            ("--features=" ++ String.intercalate "," bin.features)
              ∈ (build_cargo_server_cmd cmd bin).1)
        ∧ (bin.profile = Profile.release →
            "--release" ∈ (build_cargo_server_cmd cmd bin).1)) := by
  constructor
  · constructor
    · intro hmem hcmd
      subst hcmd
      exact binArg_not_mem_test_args bin hmem
    · intro hcmd
      apply mem_add_to_args
      simp [build_cargo_server_cmd, hcmd]
  · intro hcmd
    subst hcmd
    refine ⟨?_, ?_, ?_, ?_, ?_⟩
    · apply mem_add_to_args; simp [build_cargo_server_cmd]
    · apply mem_add_to_args; simp [build_cargo_server_cmd]
    · apply mem_add_to_args; simp [build_cargo_server_cmd]
    · intro hfe
      apply mem_add_to_args
      have : bin.features.isEmpty = false := by
        cases hf : bin.features with
        | nil => exact absurd hf hfe
        | cons a t => simp [hf]
      simp [build_cargo_server_cmd, this]
    · intro hp
      simp [build_cargo_server_cmd, hp, Profile.add_to_args]

/-- C7: server builds always pass `--target-dir=target/server`, front-end
builds always pass `--target-dir=target/front`, and the two directories
are distinct. -/
theorem target_dirs_isolated (cmd : String) (bin : BinPackage)
    (wasm : Bool) (lib : LibPackage) :
    "--target-dir=target/server" ∈ (build_cargo_server_cmd cmd bin).1
    ∧ "--target-dir=target/front" ∈ (build_cargo_front_cmd cmd wasm lib).1
    ∧ ("target/server" : String) ≠ "target/front" := by
  refine ⟨?_, ?_, by decide⟩
  · apply mem_add_to_args; simp [build_cargo_server_cmd]
  · apply mem_add_to_args; simp [build_cargo_front_cmd]


/-- C1: when the Tailwind process exits zero, the Style Task succeeds
carrying the captured stdout exactly when the last captured stderr line
contains the marker `Done`; without that marker (including when there is
no line at all) it fails despite the zero exit status. -/
theorem tailwind_success_iff_done_marker (o : Output) :
    (compile_tailwind (CommandResult.success o) = Outcome.success o.stdout ↔
      ∃ l, (rustLines o.stderr.data).getLast? = some l
        ∧ isSubListOf "Done".data l = true)
    ∧ ((∀ l, (rustLines o.stderr.data).getLast? = some l →
        isSubListOf "Done".data l = false) →
      compile_tailwind (CommandResult.success o) = Outcome.failed) := by
  unfold compile_tailwind
  rcases h : (rustLines o.stderr.data).getLast? with _ | l
  · simp [h]
  · rcases hb : isSubListOf "Done".data l with _ | _
    · simp [h, hb]
    · simp [h, hb]

/-- C3: when the cargo process resolves `Success`, the Server Task reports
`Product::Server` exactly when the Output Store external-check says the
binary changed, else `Product::None`. -/
theorem server_product_reflects_external_check (e : ServerEnv) (b : BinPackage)
    (hbin : e.bin = some b) (hneed : e.need_server_build = true)
    (hc : e.compileResult = CommandResult.success ()) :
    (server e).2 =
      (if e.binChanged then Outcome.success Product.server
       else Outcome.success Product.none) := by
  rcases hch : e.binChanged with _ | _ <;>
    simp [server, hbin, hneed, hc, hch]

/-- C4: with no server package or no server rebuild needed, the Server
Task returns `Success(Product::None)` spawning nothing, and likewise the
Front-end Task with no front-end package or no front rebuild needed. -/
theorem skip_without_spawn (e : ServerEnv) (f : FrontEnv)
    (hs : e.bin = none ∨ e.need_server_build = false)
    (hf : f.lib = none ∨ f.need_front_build = false) :
    server e = ([], Outcome.success Product.none)
    ∧ front f = ([], Outcome.success Product.none) := by
  constructor
  · rcases hs with h | h
    · simp [server, h]
    · rcases hb : e.bin with _ | b <;> simp [server, hb, h]
  · rcases hf with h | h
    · simp [front, h]
    · rcases hl : f.lib with _ | l <;> simp [front, hl, h]

/-- C6: the cargo argument builders are deterministic: equal inputs give
identical argument lists and command lines. -/
theorem cargo_cmd_builders_deterministic (cmd₁ cmd₂ : String)
    (bin₁ bin₂ : BinPackage) (wasm₁ wasm₂ : Bool) (lib₁ lib₂ : LibPackage)
    (hc : cmd₁ = cmd₂) (hb : bin₁ = bin₂) (hw : wasm₁ = wasm₂)
    (hl : lib₁ = lib₂) :
    build_cargo_server_cmd cmd₁ bin₁ = build_cargo_server_cmd cmd₂ bin₂
    ∧ build_cargo_front_cmd cmd₁ wasm₁ lib₁
      = build_cargo_front_cmd cmd₂ wasm₂ lib₂ := by
  subst hc hb hw hl
  exact ⟨rfl, rfl⟩

/-- C8: the Tailwind process is prepared with exactly the `--input` and
`--config` flags carrying the canonicalized paths, and its working
directory is the parent directory of the canonicalized config file. -/
theorem tailwind_process_args_and_cwd (canon : String → String)
    (cmd : String) (tw_conf : TailwindConfig) :
    (tailwind_process canon cmd tw_conf).1
      = ["--input", canon tw_conf.input_file,
         "--config", canon tw_conf.config_file]
    ∧ (tailwind_process canon cmd tw_conf).2.2
      = pathParent (canon tw_conf.config_file) :=
  ⟨rfl, rfl⟩


/-- C2: when front compilation, binding generation and (in release) the
optimizer succeed, the Front-end Task reports `Product::Front` exactly
when the wasm hash changed or some generated JavaScript (glue, snippet or
local module) changed, and `Product::None` when nothing changed. -/
theorem front_product_iff_changed (e : FrontEnv) (lib : LibPackage)
    (hlib : e.lib = some lib) (hneed : e.need_front_build = true)
    (hc : e.compileResult = CommandResult.success ())
    (hopt : e.release = true → e.optimizeResult = CommandResult.success ()) :
    ((front e).2 = Outcome.success Product.front ↔
      (e.wasmChanged || (e.snippetsChanged || e.modulesChanged || e.jsGlueChanged))
        = true)
    ∧ ((e.wasmChanged || (e.snippetsChanged || e.modulesChanged || e.jsGlueChanged))
        = false →
      (front e).2 = Outcome.success Product.none) := by
  rcases hr : e.release with _ | _
  · rcases hw : e.wasmChanged with _ | _ <;>
      rcases h1 : e.snippetsChanged with _ | _ <;>
      rcases h2 : e.modulesChanged with _ | _ <;>
      rcases h3 : e.jsGlueChanged with _ | _ <;>
      simp [front, bindgen, hlib, hneed, hc, hr, hw, h1, h2, h3]
  · have ho := hopt hr
    rcases hw : e.wasmChanged with _ | _ <;>
      rcases h1 : e.snippetsChanged with _ | _ <;>
      rcases h2 : e.modulesChanged with _ | _ <;>
      rcases h3 : e.jsGlueChanged with _ | _ <;>
      simp [front, bindgen, hlib, hneed, hc, hr, ho, hw, h1, h2, h3]

/-- C5: at every sub-step waiting on an external process, an interrupted
result makes the task report `Stopped` and a failure makes it report
`Failed`: for the server compile, the front compile, the release-mode
size optimizer, and the Tailwind bundler. -/
theorem substep_interrupt_failure_mapping (e : ServerEnv) (f g : FrontEnv)
    (r : CommandResult Output) :
    (e.bin ≠ none → e.need_server_build = true →
      (e.compileResult = CommandResult.interrupted → (server e).2 = Outcome.stopped)
      ∧ (e.compileResult = CommandResult.failure () → (server e).2 = Outcome.failed))
    ∧ (f.lib ≠ none → f.need_front_build = true →
      (f.compileResult = CommandResult.interrupted → (front f).2 = Outcome.stopped)
      ∧ (f.compileResult = CommandResult.failure () → (front f).2 = Outcome.failed))
    ∧ (g.lib ≠ none → g.need_front_build = true →
      g.compileResult = CommandResult.success () → g.release = true →
      (g.optimizeResult = CommandResult.interrupted → (front g).2 = Outcome.stopped)
      ∧ (g.optimizeResult = CommandResult.failure () → (front g).2 = Outcome.failed))
    ∧ (r = CommandResult.interrupted → compile_tailwind r = Outcome.stopped)
    ∧ (∀ o, r = CommandResult.failure o → compile_tailwind r = Outcome.failed) := by
  refine ⟨?_, ?_, ?_, ?_, ?_⟩
  · intro hbin hneed
    rcases hb : e.bin with _ | b
    · exact absurd hb hbin
    · exact ⟨fun hi => by simp [server, hb, hneed, hi],
        fun hi => by simp [server, hb, hneed, hi]⟩
  · intro hlib hneed
    rcases hl : f.lib with _ | l
    · exact absurd hl hlib
    · exact ⟨fun hi => by simp [front, hl, hneed, hi],
        fun hi => by simp [front, hl, hneed, hi]⟩
  · intro hlib hneed hc hr
    rcases hl : g.lib with _ | l
    · exact absurd hl hlib
    · exact ⟨fun hi => by simp [front, bindgen, hl, hneed, hc, hr, hi],
        fun hi => by simp [front, bindgen, hl, hneed, hc, hr, hi]⟩
  · intro hi
    simp [compile_tailwind, hi]
  · intro o hi
    simp [compile_tailwind, hi]

/-- C9: front-end sub-steps are strictly sequential: binding generation
appears in the step trace only when cargo resolved `Success` and only
after the compile step, and the size optimizer appears only in release
mode, directly after the wasm file was emitted. -/
theorem front_substeps_sequential (e : FrontEnv) :
    (Step.emitWasm ∈ (front e).1 →
      e.compileResult = CommandResult.success ()
      ∧ (front e).1.head? = some Step.compile)
    ∧ (e.release = false → Step.optimize ∉ (front e).1)
    ∧ (Step.optimize ∈ (front e).1 →
      e.release = true
      ∧ (front e).1.take 3 = [Step.compile, Step.emitWasm, Step.optimize]) := by
  rcases hl : e.lib with _ | l <;>
    rcases hn : e.need_front_build with _ | _ <;>
    rcases hc : e.compileResult with u | _ | u <;>
    rcases hr : e.release with _ | _ <;>
    rcases ho : e.optimizeResult with v | _ | v <;>
    simp [front, bindgen, hl, hn, hc, hr, ho]


/-- Witness for C1: a zero-exit Tailwind run whose stderr lacks the
marker is Failed. -/
theorem tailwind_success_iff_done_marker_witness :
    compile_tailwind (CommandResult.success ⟨"css", "error happened"⟩)
      = Outcome.failed :=
  (tailwind_success_iff_done_marker ⟨"css", "error happened"⟩).2 (by
    intro l hl
    have h : (rustLines (Output.stderr ⟨"css", "error happened"⟩).data).getLast?
        = some "error happened".data := by decide
    rw [h] at hl
    injection hl with h2
    subst h2
    decide)

/-- Witness for C2: nothing changed, so the front task reports
`Product::None`. -/
theorem front_product_iff_changed_witness :
    (front ⟨some ⟨"app", true, [], Profile.debug, "w.wasm", "app.js"⟩, true, false,
      CommandResult.success (), CommandResult.success (),
      false, false, false, false⟩).2 = Outcome.success Product.none :=
  (front_product_iff_changed _ ⟨"app", true, [], Profile.debug, "w.wasm", "app.js"⟩
    rfl rfl rfl (fun _ => rfl)).2 rfl

/-- Witness for C3: a changed binary yields `Product::Server`. -/
theorem server_product_reflects_external_check_witness :
    (server ⟨some ⟨"srv", "srv", none, true, [], Profile.debug, "exe"⟩, true,
      CommandResult.success (), true⟩).2 = Outcome.success Product.server := by
  have h := server_product_reflects_external_check
    ⟨some ⟨"srv", "srv", none, true, [], Profile.debug, "exe"⟩, true,
      CommandResult.success (), true⟩
    ⟨"srv", "srv", none, true, [], Profile.debug, "exe"⟩ rfl rfl rfl
  simpa using h

/-- Witness for C4: tasks with no package configured spawn nothing. -/
theorem skip_without_spawn_witness :
    server ⟨none, true, CommandResult.success (), false⟩
      = ([], Outcome.success Product.none)
    ∧ front ⟨none, true, false, CommandResult.success (),
        CommandResult.success (), false, false, false, false⟩
      = ([], Outcome.success Product.none) :=
  skip_without_spawn _ _ (Or.inl rfl) (Or.inl rfl)

/-- Witness for C5: an interrupted Tailwind run is Stopped, and an
interrupted server compile is Stopped. -/
theorem substep_interrupt_failure_mapping_witness :
    compile_tailwind CommandResult.interrupted = Outcome.stopped
    ∧ (server ⟨some ⟨"srv", "srv", none, true, [], Profile.debug, "exe"⟩, true,
        CommandResult.interrupted, false⟩).2 = Outcome.stopped := by
  have h := substep_interrupt_failure_mapping
    ⟨some ⟨"srv", "srv", none, true, [], Profile.debug, "exe"⟩, true,
      CommandResult.interrupted, false⟩
    ⟨none, false, false, CommandResult.success (), CommandResult.success (),
      false, false, false, false⟩
    ⟨none, false, false, CommandResult.success (), CommandResult.success (),
      false, false, false, false⟩
    CommandResult.interrupted
  exact ⟨h.2.2.2.1 rfl, (h.1 (by decide) rfl).1 rfl⟩

/-- Witness for C6: the builders applied twice to equal inputs agree. -/
theorem cargo_cmd_builders_deterministic_witness :
    build_cargo_server_cmd "build" ⟨"srv", "srv", none, true, [], Profile.debug, "exe"⟩
      = build_cargo_server_cmd "build" ⟨"srv", "srv", none, true, [], Profile.debug, "exe"⟩ :=
  (cargo_cmd_builders_deterministic "build" "build"
    ⟨"srv", "srv", none, true, [], Profile.debug, "exe"⟩
    ⟨"srv", "srv", none, true, [], Profile.debug, "exe"⟩
    true true
    ⟨"lib", true, [], Profile.debug, "w", "j"⟩
    ⟨"lib", true, [], Profile.debug, "w", "j"⟩
    rfl rfl rfl rfl).1

/-- Witness for C9: a debug-mode front run never performs the optimizer
step. -/
theorem front_substeps_sequential_witness :
    Step.optimize ∉ (front ⟨some ⟨"app", true, [], Profile.debug, "w", "j"⟩, true,
      false, CommandResult.success (), CommandResult.success (),
      false, false, true, false⟩).1 :=
  (front_substeps_sequential
    ⟨some ⟨"app", true, [], Profile.debug, "w", "j"⟩, true, false,
      CommandResult.success (), CommandResult.success (),
      false, false, true, false⟩).2.1 rfl

/-- Witness for C10: a `build` subcommand does receive the binary
selector. -/
theorem server_bin_selector_iff_not_test_witness :
    ("--bin=" ++ "srv")
      ∈ (build_cargo_server_cmd "build"
          ⟨"pkg", "srv", none, true, [], Profile.debug, "exe"⟩).1 :=
  (server_bin_selector_iff_not_test "build"
    ⟨"pkg", "srv", none, true, [], Profile.debug, "exe"⟩).1.mpr (by decide)

end CargoLeptos
